import Mathlib

/-!
A shallow embedding of the `deflect` reflection library's core
(schema builder, discriminant resolution, slice-value iteration and the
symbol-to-type resolver) together with theorems checking the
natural-language specification against it.

Debug-info entries are modelled as finite trees of tagged nodes with
attribute lists; a compilation unit is an offset-indexed lookup of
entries.  Machine integers appearing in the source (`u8`, `u64`,
`usize`) are modelled as `Nat`, with truncating casts made explicit as
`% 256` where the source performs an `as u8` cast.  Fallible Rust code
returning `Result` is modelled with the `RRes` type below, whose third
constructor records a process abort (an `unwrap`/`assert!`/`todo!`
panic) as distinct from a returned, typed error.
-/

namespace Deflect

/-- DWARF tags used by the core (`gimli::DW_TAG_*`). -/
inductive DwTag where
  | DW_TAG_structure_type
  | DW_TAG_enumeration_type
  | DW_TAG_variant_part
  | DW_TAG_variant
  | DW_TAG_member
  | DW_TAG_enumerator
  | DW_TAG_template_type_parameter
  | otherTag (code : Nat)
deriving DecidableEq, Repr

/-- DWARF attribute names used by the core (`gimli::DW_AT_*`). -/
inductive DwAt where
  | DW_AT_name
  | DW_AT_byte_size
  | DW_AT_alignment
  | DW_AT_type
  | DW_AT_const_value
  | DW_AT_discr
  | DW_AT_discr_value
  | DW_AT_data_member_location
  | otherAt (code : Nat)
deriving DecidableEq, Repr

/-- Attribute values (`gimli::AttributeValue`), restricted to the
encodings the core inspects.  `Data1`..`Data8` carry fixed-width
unsigned payloads, `Udata` a `u64`, `UnitRef` an entry offset and
`Str` an already-resolved string. -/
inductive AttrValue where
  | Data1 (v : Nat)
  | Data2 (v : Nat)
  | Data4 (v : Nat)
  | Data8 (v : Nat)
  | Udata (v : Nat)
  | UnitRef (offset : Nat)
  | Str (s : String)
  | otherVal (code : Nat)
deriving DecidableEq, Repr

/-- The typed error values of `deflect::ErrorKind` (src/lib.rs). -/
inductive ErrorKind where
  | TagMismatch (expected actual : DwTag)
  | ValueMismatch
  | MissingAttr (attr : DwAt)
  | MissingChild (tag : DwTag)
  | Gimli
  | MakeAMoreSpecificVariant (msg : String)
deriving DecidableEq, Repr

/-- Outcome of running a piece of the Rust core: a returned value, a
returned typed error, or a process abort (`unwrap` on `None`/`Err`,
`assert_eq!` failure, `todo!`, `unimplemented!`). -/
inductive RRes (α : Type) where
  | ok (val : α)
  | err (e : ErrorKind)
  | panicked
deriving Repr, DecidableEq

/-- Rust `Result::map` on `RRes`. -/
def RRes.map {α β : Type} (f : α → β) : RRes α → RRes β
  | .ok a => .ok (f a)
  | .err e => .err e
  | .panicked => .panicked

/-- A debugging information entry: its unit offset, its tag, its
attributes (in declaration order) and its immediate children (in
declaration order, each with its own subtree). -/
inductive DIE where
  | mk (offset : Nat) (tag : DwTag) (attrs : List (DwAt × AttrValue)) (children : List DIE)

/-- The entry's offset within its unit. -/
def DIE.offset : DIE → Nat
  | .mk o _ _ _ => o

/-- The entry's tag. -/
def DIE.tag : DIE → DwTag
  | .mk _ t _ _ => t

/-- The entry's attribute list. -/
def DIE.attrs : DIE → List (DwAt × AttrValue)
  | .mk _ _ a _ => a

/-- The entry's immediate children. -/
def DIE.children : DIE → List DIE
  | .mk _ _ _ c => c

/-- Source `DebuggingInformationEntry::attr_value`: the value of the first
attribute with the given name, if any. -/
def DIE.attr_value (d : DIE) (a : DwAt) : Option AttrValue :=
  (d.attrs.find? (fun p => p.1 == a)).map (fun p => p.2)

/-- A compilation unit: entry lookup by offset (`Unit::entry` /
`Unit::entries_tree(Some(offset))`), plus the root entry that
`entries_tree(None)` would produce. -/
structure RUnit where
  entry : Nat → Option DIE
  root : DIE

/-- Source `AttributeValue::udata_value`: the unsigned payload of a data
encoding, `none` for non-data encodings. -/
def udata_value : AttrValue → Option Nat
  | .Data1 v => some v
  | .Data2 v => some v
  | .Data4 v => some v
  | .Data8 v => some v
  | .Udata v => some v
  | _ => none

/-- Source `check_tag` (src/lib.rs): typed `TagMismatch` error when the
entry's tag is not the expected one. -/
def check_tag (entry : DIE) (expected : DwTag) : RRes Unit :=
  if entry.tag = expected then .ok () else .err (.TagMismatch expected entry.tag)

/-- Source `get` (src/lib.rs): a required attribute, `MissingAttr` when
absent. -/
def getAttr (entry : DIE) (attr : DwAt) : RRes AttrValue :=
  match entry.attr_value attr with
  | some v => .ok v
  | none => .err (.MissingAttr attr)

/-- Source `get_name` (src/lib.rs): the `DW_AT_name` attribute resolved
through the string table; a non-string value is a provider error. -/
def get_name (entry : DIE) : RRes String :=
  match getAttr entry .DW_AT_name with
  | .ok (.Str s) => .ok s
  | .ok _ => .err .Gimli
  | .err e => .err e
  | .panicked => .panicked

/-- Source `get_size` (src/lib.rs): the `DW_AT_byte_size` attribute as an
unsigned integer; absent is `MissingAttr`, a non-data encoding is
`ValueMismatch`. -/
def get_size (entry : DIE) : RRes Nat :=
  match getAttr entry .DW_AT_byte_size with
  | .ok v =>
    match udata_value v with
    | some n => .ok n
    | none => .err .ValueMismatch
  | .err e => .err e
  | .panicked => .panicked

/-- Source `get_align` (src/lib.rs): the `DW_AT_alignment` attribute as an
unsigned integer; absent is `MissingAttr`, a non-data encoding is
`ValueMismatch`. -/
def get_align (entry : DIE) : RRes Nat :=
  match getAttr entry .DW_AT_alignment with
  | .ok v =>
    match udata_value v with
    | some n => .ok n
    | none => .err .ValueMismatch
  | .err e => .err e
  | .panicked => .panicked

/-- Source `get_type` (src/lib.rs): the `DW_AT_type` attribute, which must be
a unit-local entry reference. -/
def get_type (entry : DIE) : RRes Nat :=
  match getAttr entry .DW_AT_type with
  | .ok (.UnitRef offset) => .ok offset
  | .ok _ => .err .ValueMismatch
  | .err e => .err e
  | .panicked => .panicked

/-- Source `get_attr_ref` (src/lib.rs): `Some offset` when the attribute is
present and is a unit-local reference, `None` otherwise. -/
def get_attr_ref (entry : DIE) (name : DwAt) : Option Nat :=
  match entry.attr_value name with
  | some (.UnitRef offset) => some offset
  | _ => none

/-- Modelled from the spec: `DiscriminantType::from_die`
(schema/mod.rs, not under src/) derives the discriminant's integer
kind (1/2/4/8-byte unsigned) from the referenced type entry; the model
keeps that entry as the derivation's input. -/
structure DiscriminantType where
  die : DIE

/-- Modelled from the spec: the discriminant integer type derived from
a type entry. -/
def DiscriminantType.from_die (entry : DIE) : DiscriminantType :=
  ⟨entry⟩

/-- The `Discriminant` struct (src/schema/discriminant.rs): integer type,
alignment, and location (a symbolic attribute value: either a fixed
`Udata` offset or a location expression). -/
structure Discriminant where
  type : DiscriminantType
  align : Nat
  location : AttrValue

/-- Source `Discriminant::from_dw_tag_enumeration_type`
(src/schema/discriminant.rs lines 15-35): the discriminant of a simple
enumeration. The entry's tag is checked by `assert_eq!` (an abort, not
a typed error); the integer type comes from the entry's own
`DW_AT_type` attribute, resolved through the unit (both `.unwrap()`ed,
so failures abort); the alignment is read by `get_align` and
propagated with `?` (the source's trailing `.unwrap()` does not
type-check against `get_align`'s declared `Result<u64, _>` and is a
no-op under that signature); the location is the constant
`AttributeValue::Udata(0)`. -/
def Discriminant.from_dw_tag_enumeration_type (u : RUnit) (entry : DIE) :
    RRes Discriminant :=
  if entry.tag ≠ .DW_TAG_enumeration_type then .panicked
  else
    match get_type entry with
    | .ok tyOff =>
      match u.entry tyOff with
      | none => .panicked
      | some tyEntry =>
        match get_align entry with
        | .ok align =>
          .ok ⟨DiscriminantType.from_die tyEntry, align, .Udata 0⟩
        | .err e => .err e
        | .panicked => .panicked
    | _ => .panicked

/-- Source `Discriminant::from_dw_tag_variant_part`
(src/schema/discriminant.rs lines 37-66): the discriminant of a
tagged-union variant part. The member entry is found through the
`DW_AT_discr` reference (`.unwrap()`ed: absent reference or dangling
offset aborts); its `DW_AT_type` yields the integer type (aborts on
failure); the alignment calls `get_align` and `.unwrap()`s the result,
so with `get_align`'s declared `Result<u64, _>` signature a missing
`DW_AT_alignment` attribute aborts and the source's trailing
`.unwrap_or(1)` (which only type-checks against an `Option` layer that
`get_align` does not return) never applies; the location is the
member's `DW_AT_data_member_location` (`.unwrap()`ed: absent
aborts). -/
def Discriminant.from_dw_tag_variant_part (u : RUnit) (entry : DIE) :
    RRes Discriminant :=
  if entry.tag ≠ .DW_TAG_variant_part then .panicked
  else
    match (get_attr_ref entry .DW_AT_discr).bind u.entry with
    | none => .panicked
    | some member =>
      match get_type member with
      | .ok tyOff =>
        match u.entry tyOff with
        | none => .panicked
        | some tyEntry =>
          match get_align entry with
          | .ok align =>
            match member.attr_value .DW_AT_data_member_location with
            | none => .panicked
            | some loc =>
              .ok ⟨DiscriminantType.from_die tyEntry, align, loc⟩
          | _ => .panicked
      | _ => .panicked

/-- Modelled from the spec: the variant-part discriminant construction
as the specification describes it — identical to
`Discriminant.from_dw_tag_variant_part` except that "alignment
defaults to 1 only for the outer variant-part alignment when absent",
which is also what the source's (ill-typed) `.unwrap_or(1)` call
visibly intends. -/
def Discriminant.from_dw_tag_variant_part_spec (u : RUnit) (entry : DIE) :
    RRes Discriminant :=
  if entry.tag ≠ .DW_TAG_variant_part then .panicked
  else
    match (get_attr_ref entry .DW_AT_discr).bind u.entry with
    | none => .panicked
    | some member =>
      match get_type member with
      | .ok tyOff =>
        match u.entry tyOff with
        | none => .panicked
        | some tyEntry =>
          let align := ((entry.attr_value .DW_AT_alignment).bind udata_value).getD 1
          match member.attr_value .DW_AT_data_member_location with
          | none => .panicked
          | some loc =>
            .ok ⟨DiscriminantType.from_die tyEntry, align, loc⟩
      | _ => .panicked

/-- The `DiscriminantValue` enum (src/schema/discriminant.rs lines 81-87). -/
inductive DiscriminantValue where
  | U8 (v : Nat)
  | U16 (v : Nat)
  | U32 (v : Nat)
  | U64 (v : Nat)
deriving DecidableEq, Repr

/-- Source `impl From<AttributeValue<R>> for DiscriminantValue`
(src/schema/discriminant.rs lines 89-103).  `Data1`..`Data8` map to
the matching width; the generic `Udata` encoding (a `u64`) is cast
with `as u8`, i.e. truncated modulo 256, into an 8-bit value; every
other encoding hits `todo!()`, an abort. -/
def DiscriminantValue.ofAttr : AttrValue → RRes DiscriminantValue
  | .Data1 v => .ok (.U8 v)
  | .Data2 v => .ok (.U16 v)
  | .Data4 v => .ok (.U32 v)
  | .Data8 v => .ok (.U64 v)
  | .Udata v => .ok (.U8 (v % 256))
  | _ => .panicked

/-- An `Option::map` over the `From` conversion
(`.map(|value| value.into())` at src/schema/enum.rs lines 129-132 and
161-164), with the conversion's aborts propagated. -/
def convOpt : Option AttrValue → RRes (Option DiscriminantValue)
  | none => .ok none
  | some v =>
    match DiscriminantValue.ofAttr v with
    | .ok dv => .ok (some dv)
    | .err e => .err e
    | .panicked => .panicked

/-- Modelled from the spec: a schema node (`Type`, schema/mod.rs, not
under src/) — "an immutable, borrowed-metadata description of a memory
layout".  The model keeps the node's defining entry together with its
resolved byte size. -/
structure SType where
  die : DIE
  size : Nat

/-- Modelled from the spec: `Type::from_die` "recursively converts a
debug-information entry into a typed schema node"; the model pairs the
entry with its declared byte size (0 when the attribute is absent —
no claim depends on `from_die`'s own failure modes). -/
def Type_from_die (entry : DIE) : SType :=
  ⟨entry, ((entry.attr_value .DW_AT_byte_size).bind udata_value).getD 0⟩

/-- Modelled from the spec: `Variant` (schema/variant.rs, not under
src/) — "each a discriminant value plus a nested `Type`", created by
`Variant::new(dwarf, unit, entry, discriminant, discriminant_value)`.
The model records the entry, the enclosing discriminant descriptor and
the optional discriminant value. -/
structure Variant where
  entry : DIE
  discriminant : Discriminant
  discriminant_value : Option DiscriminantValue

/-- The `Enum` struct (src/schema/enum.rs): the unit, the defining entry, the
resolved name and the discriminant descriptor. -/
structure Enum where
  unit : RUnit
  entry : DIE
  name : String
  discriminant : Discriminant

/-- The child scan of `Enum::from_dw_tag_structure_type`
(src/schema/enum.rs lines 56-71): walk the immediate children in
order; the first child tagged `DW_TAG_variant_part` provides the
discriminant (errors of the discriminant construction propagate);
if no such child exists the result is a `MissingChild` error naming
`DW_TAG_variant_part`. -/
def findVariantPartDiscr (u : RUnit) : List DIE → RRes Discriminant
  | [] => .err (.MissingChild .DW_TAG_variant_part)
  | c :: rest =>
    if c.tag = .DW_TAG_variant_part then Discriminant.from_dw_tag_variant_part u c
    else findVariantPartDiscr u rest

/-- Source `Enum::from_dw_tag_enumeration_type` (src/schema/enum.rs lines
32-47): tag check (typed error), name resolution, then the simple
discriminant. -/
def Enum.from_dw_tag_enumeration_type (u : RUnit) (entry : DIE) : RRes Enum :=
  match check_tag entry .DW_TAG_enumeration_type with
  | .err e => .err e
  | .panicked => .panicked
  | .ok () =>
    match get_name entry with
    | .err e => .err e
    | .panicked => .panicked
    | .ok name =>
      (Discriminant.from_dw_tag_enumeration_type u entry).map
        (fun d => ⟨u, entry, name, d⟩)

/-- Source `Enum::from_dw_tag_structure_type` (src/schema/enum.rs lines
49-80): tag check (typed error), name resolution, then the immediate
children of the entry (the entries tree rooted at the entry's own
offset) are scanned for the first variant part. -/
def Enum.from_dw_tag_structure_type (u : RUnit) (entry : DIE) : RRes Enum :=
  match check_tag entry .DW_TAG_structure_type with
  | .err e => .err e
  | .panicked => .panicked
  | .ok () =>
    match get_name entry with
    | .err e => .err e
    | .panicked => .panicked
    | .ok name =>
      match u.entry entry.offset with
      | none => .err .Gimli
      | some root =>
        (findVariantPartDiscr u root.children).map (fun d => ⟨u, entry, name, d⟩)

/-- The enumeration branch of `Enum::variants` (src/schema/enum.rs
lines 109-140), one enumerator child at a time: a child whose tag is
not `DW_TAG_enumerator` fails the `assert_eq!` (abort); a child
without a `DW_AT_const_value` attribute aborts (`.unwrap()` on
`None`); a constant value that is not the `Udata` encoding hits
`unimplemented!()` (abort); otherwise the constant is re-read and
converted through the `From` conversion into the variant's
discriminant value.  (The dead `let _discriminant = ...` binding at
lines 118-127 is ill-typed in the source and binds no observable
state; it is omitted.) -/
def enumVariantsLoop (disc : Discriminant) : List DIE → RRes (List Variant)
  | [] => .ok []
  | c :: rest =>
    if c.tag ≠ .DW_TAG_enumerator then .panicked
    else
      match c.attr_value .DW_AT_const_value with
      | none => .panicked
      | some (.Udata _) =>
        match convOpt (c.attr_value .DW_AT_const_value) with
        | .err e => .err e
        | .panicked => .panicked
        | .ok dv =>
          (enumVariantsLoop disc rest).map (fun vs => ⟨c, disc, dv⟩ :: vs)
      | some _ => .panicked

/-- The structure branch of `Enum::variants` (src/schema/enum.rs lines
156-180), one variant-part child at a time: children not tagged
`DW_TAG_variant` are skipped; for a variant, the optional
`DW_AT_discr_value` is converted (conversion aborts propagate), the
variant's first child is taken (`.unwrap()`: a childless variant
aborts), its `DW_AT_type` is resolved through the unit (aborts on
failure), and the referenced payload entry becomes the variant's
entry. -/
def structVariantsLoop (u : RUnit) (disc : Discriminant) : List DIE → RRes (List Variant)
  | [] => .ok []
  | c :: rest =>
    if c.tag = .DW_TAG_variant then
      match convOpt (c.attr_value .DW_AT_discr_value) with
      | .err e => .err e
      | .panicked => .panicked
      | .ok dv =>
        match c.children.head? with
        | none => .panicked
        | some payload =>
          match get_type payload with
          | .ok tyOff =>
            match u.entry tyOff with
            | none => .panicked
            | some payloadEntry =>
              (structVariantsLoop u disc rest).map (fun vs => ⟨payloadEntry, disc, dv⟩ :: vs)
          | _ => .panicked
    else structVariantsLoop u disc rest

/-- Source `Enum::variants` (src/schema/enum.rs lines 96-184), modelled as
the ordered list of variants passed to the visitor `f`.  The entries
tree at the entry's own offset is opened (`.unwrap()`: a failed lookup
aborts).  For an enumeration entry, the discriminant type is resolved
from the entry's `DW_AT_type` (each step `.unwrap()`ed, aborting on
failure) and the enumerator children are visited in declaration
order.  For a structure entry, the first variant-part child's subtree
is opened (when no variant part exists the source reopens the unit
root) and its variant children are visited in declaration order.  Any
other tag hits `panic!()`. -/
def Enum.variants (en : Enum) : RRes (List Variant) :=
  match en.unit.entry en.entry.offset with
  | none => .panicked
  | some root =>
    match en.entry.tag with
    | .DW_TAG_enumeration_type =>
      match get_type en.entry with
      | .ok tyOff =>
        match en.unit.entry tyOff with
        | none => .panicked
        | some tyEntry =>
          let _discriminant_type := Type_from_die tyEntry
          enumVariantsLoop en.discriminant root.children
      | _ => .panicked
    | .DW_TAG_structure_type =>
      let variant_part := (root.children.find? (fun c => c.tag == .DW_TAG_variant_part)).map DIE.offset
      match variant_part with
      | some vpOff =>
        match en.unit.entry vpOff with
        | none => .panicked
        | some vpRoot => structVariantsLoop en.unit en.discriminant vpRoot.children
      | none => structVariantsLoop en.unit en.discriminant en.unit.root.children
    | _ => .panicked

/-- Source `Enum::size` (src/schema/enum.rs lines 186-194): the entry's
`DW_AT_byte_size` as an unsigned integer, `.unwrap()`ed — a missing
attribute or a non-data encoding aborts instead of returning a typed
error. -/
def Enum.size (en : Enum) : RRes Nat :=
  match (en.entry.attr_value .DW_AT_byte_size).bind udata_value with
  | none => .panicked
  | some n => .ok n

/-- Source `Enum::align` (src/schema/enum.rs lines 196-204): the entry's
`DW_AT_alignment` as an unsigned integer, `.unwrap()`ed — a missing
attribute or a non-data encoding aborts instead of returning a typed
error. -/
def Enum.align (en : Enum) : RRes Nat :=
  match (en.entry.attr_value .DW_AT_alignment).bind udata_value with
  | none => .panicked
  | some n => .ok n

/-- A slice value (src/value/slice.rs).  The slice's own bytes expose
a pointer field and a length field; `Slice::len` and
`Slice::data_ptr` (modelled from the spec: they project those fields
through the missing `Field`/`Atom`/`Ref` value machinery, not under
src/) are collapsed into the already-read `len` and `data_ptr`
components.  `elt` is the element schema returned by
`schema.elt()` with its resolved byte size. -/
structure Slice where
  len : Nat
  data_ptr : Nat
  elt : SType

/-- Fuel-indexed core of Rust's `slice::chunks`: split off `s`
elements at a time.  The fuel only bounds recursion depth; it is
always called with fuel equal to the list length, which suffices
because every step consumes at least one element. -/
def chunksFuel {α : Type} (s : Nat) : Nat → List α → List (List α)
  | _, [] => []
  | 0, _ :: _ => []
  | fuel + 1, x :: xs => (x :: xs.take (s - 1)) :: chunksFuel s fuel (xs.drop (s - 1))

/-- Rust's `slice::chunks(s)` as a list of chunks: consecutive runs of
`s` elements, the last chunk possibly shorter.  Rust's `chunks` with
`s = 0` aborts ("chunk size must be non-zero"); that abort is raised
at the call site in `Slice.iter` below. -/
def chunksList {α : Type} (s : Nat) (xs : List α) : List (List α) :=
  chunksFuel s xs.length xs

/-- Source `Slice::iter` (src/value/slice.rs lines 43-60): read the element
size, the length field and the pointer field, slice
`element_size × length` bytes out of the dereferenced pointer target
(`mem` gives the byte stored at each address), chunk by element size
and pair each chunk with the element schema.  `chunks(0)` aborts, as
in Rust, even before any element is demanded; for a positive element
size the `take length` keeps exactly the `length` chunks of the
exact-multiple byte span. -/
def Slice.iter (s : Slice) (mem : Nat → Nat) : RRes (List (SType × List Nat)) :=
  let elt_size := s.elt.size
  let bytes := elt_size * s.len
  let value := (List.range bytes).map (fun i => mem (s.data_ptr + i))
  if elt_size = 0 then .panicked
  else .ok (((chunksList elt_size value).take s.len).map (fun c => (s.elt, c)))

/-- The execution context of the symbol-to-type resolver
(`addr2line::Context` plus the backtrace-based symbol lookup of
`dw_unit_and_die_of`, src/lib.rs lines 117-160): the helper function's
resolved symbol address, the first frame's debug-info entry offset for
an address, and the unit covering an address. -/
structure Ctx where
  symbolAddr : Option Nat
  frameOffset : Nat → Option Nat
  unitFor : Nat → Option RUnit

/-- The error message for a failed symbol-address lookup
(src/lib.rs line 135). -/
def msgNoSymbol : String :=
  "Could not find symbol address for symbol_addr::<T>."

/-- The error message for a frame without a debug-info entry offset
(src/lib.rs line 142). -/
def msgNoDebugInfo : String :=
  "Could not find debug info for symbol_addr::<T>."

/-- The error message for a resolved entry without a type-parameter
child (src/lib.rs line 157). -/
def msgNoParam : String :=
  "Could not find parameter type entry"

/-- Source `dw_unit_and_die_of` (src/lib.rs lines 117-160): resolve the
helper function's address to a symbol (reported failure when absent),
then to the first frame's debug-info entry offset (reported failure
when absent), then to the covering unit (`.unwrap()`: an abort when
absent); open the entry's subtree (a provider error when the offset is
dangling) and scan the immediate children for the first one tagged
`DW_TAG_template_type_parameter`, returning the unit together with
that child's `DW_AT_type` target (whose resolution failures
propagate); when no such child exists, a distinctly-worded reported
failure. -/
def dw_unit_and_die_of (ctx : Ctx) : RRes (RUnit × Nat) :=
  match ctx.symbolAddr with
  | none => .err (.MakeAMoreSpecificVariant msgNoSymbol)
  | some addr =>
    match ctx.frameOffset addr with
    | none => .err (.MakeAMoreSpecificVariant msgNoDebugInfo)
    | some dieOff =>
      match ctx.unitFor addr with
      | none => .panicked
      | some u =>
        match u.entry dieOff with
        | none => .err .Gimli
        | some root =>
          match root.children.find? (fun c => c.tag == .DW_TAG_template_type_parameter) with
          | none => .err (.MakeAMoreSpecificVariant msgNoParam)
          | some c => (get_type c).map (fun ty => (u, ty))

/-- The declared constant of an enumerator child: the unsigned payload
of its `DW_AT_const_value` attribute in the `Udata` encoding (0 when
absent or differently encoded; the schema builder aborts on those
children before the value is used). -/
def udataConst (c : DIE) : Nat :=
  match c.attr_value .DW_AT_const_value with
  | some (.Udata v) => v
  | _ => 0

theorem chunksFuel_nil {α : Type} (s f : Nat) : chunksFuel s f ([] : List α) = [] := by
  cases f <;> rfl

theorem chunksFuel_succ_cons {α : Type} (s f : Nat) (x : α) (xs : List α) :
    chunksFuel s (f + 1) (x :: xs) =
      (x :: xs.take (s - 1)) :: chunksFuel s f (xs.drop (s - 1)) := rfl

/-- The fuel of `chunksFuel` is irrelevant as long as it covers the
list's length. -/
theorem chunksFuel_irrel {α : Type} (s : Nat) :
    ∀ (f₁ : Nat) (xs : List α) (f₂ : Nat), xs.length ≤ f₁ → xs.length ≤ f₂ →
      chunksFuel s f₁ xs = chunksFuel s f₂ xs := by
  intro f₁
  induction f₁ with
  | zero =>
    intro xs f₂ h₁ _
    have hx : xs = [] := List.eq_nil_of_length_eq_zero (Nat.le_zero.mp h₁)
    subst hx
    simp [chunksFuel_nil]
  | succ f ih =>
    intro xs f₂ h₁ h₂
    cases xs with
    | nil => simp [chunksFuel_nil]
    | cons x xs =>
      cases f₂ with
      | zero => simp at h₂
      | succ g =>
        rw [chunksFuel_succ_cons, chunksFuel_succ_cons]
        have hd : (xs.drop (s - 1)).length ≤ xs.length := by
          simp [List.length_drop]
        simp only [List.length_cons, Nat.succ_le_succ_iff] at h₁ h₂
        rw [ih (xs.drop (s - 1)) g (le_trans hd h₁) (le_trans hd h₂)]

/-- Lemma: `chunks` peels an exact-length prefix off the front. -/
theorem chunksList_cons_of_length {α : Type} (s : Nat) (hs : 0 < s)
    (xs ys : List α) (h : xs.length = s) :
    chunksList s (xs ++ ys) = xs :: chunksList s ys := by
  cases xs with
  | nil => simp at h; omega
  | cons x xs' =>
    have hlen : (x :: xs' ++ ys).length = (xs'.length + ys.length) + 1 := by
      simp [List.length_append]
    unfold chunksList
    rw [hlen, List.cons_append, chunksFuel_succ_cons]
    have hx : xs'.length = s - 1 := by
      simp only [List.length_cons] at h; omega
    rw [List.take_append_of_le_length (by omega)]
    rw [List.take_of_length_le (by omega)]
    rw [List.drop_left' hx]
    congr 1
    exact chunksFuel_irrel s (xs'.length + ys.length) ys ys.length (by omega) (le_refl _)

/-- Chunking an exact multiple of the chunk size, presented over a
mapped index range: `s * n` consecutive indices split into `n` runs of
`s`. -/
theorem chunksList_range_map {α : Type} (s : Nat) (hs : 0 < s) :
    ∀ (n : Nat) (f : Nat → α),
      chunksList s ((List.range (s * n)).map f) =
        (List.range n).map (fun i => (List.range s).map (fun j => f (s * i + j))) := by
  intro n
  induction n with
  | zero =>
    intro f
    simp [chunksList, chunksFuel_nil]
  | succ n ih =>
    intro f
    have hmul : s * (n + 1) = s + s * n := by ring
    rw [hmul, List.range_add, List.map_append, List.map_map]
    rw [chunksList_cons_of_length s hs _ _ (by simp)]
    rw [ih]
    rw [List.range_succ_eq_map]
    simp only [List.map_cons, List.map_map, Function.comp]
    refine congrArg₂ List.cons ?_ ?_
    · refine List.map_congr_left (fun j _ => ?_)
      have hj : s * 0 + j = j := by ring
      rw [hj]
    · refine List.map_congr_left (fun i _ => ?_)
      refine List.map_congr_left (fun j _ => ?_)
      have hij : s * Nat.succ i + j = s + (s * i + j) := by
        rw [Nat.mul_succ]; omega
      rw [hij]

/-- The child scan of `Enum::from_dw_tag_structure_type` is a
first-match search over the immediate children. -/
theorem findVariantPartDiscr_eq_find (u : RUnit) (l : List DIE) :
    findVariantPartDiscr u l =
      match l.find? (fun c => c.tag == .DW_TAG_variant_part) with
      | none => .err (.MissingChild .DW_TAG_variant_part)
      | some c => Discriminant.from_dw_tag_variant_part u c := by
  induction l with
  | nil => rfl
  | cons c rest ih =>
    by_cases h : c.tag = .DW_TAG_variant_part
    · simp [findVariantPartDiscr, List.find?_cons, h]
    · simp [findVariantPartDiscr, List.find?_cons, h, ih]

/-- C9: converting a `Udata`-encoded attribute value to a discriminant
value always yields an 8-bit discriminant holding the value reduced
modulo 256, so for every declared constant of 256 or greater encoded
as `Udata` the stored value differs from the declared constant. -/
theorem C9_udata_conversion_truncates (v : Nat) :
    DiscriminantValue.ofAttr (.Udata v) = .ok (.U8 (v % 256)) ∧
    (256 ≤ v → v % 256 ≠ v) := by
  refine ⟨rfl, fun h => ?_⟩
  have hlt : v % 256 < 256 := Nat.mod_lt _ (by omega)
  omega

/-- Witness for C9 at the declared constant 300: the stored 8-bit
value is 44, not 300. -/
theorem C9_udata_conversion_truncates_witness :
    DiscriminantValue.ofAttr (.Udata 300) = .ok (.U8 44) ∧ (300 : Nat) % 256 ≠ 300 :=
  ⟨(C9_udata_conversion_truncates 300).1,
   (C9_udata_conversion_truncates 300).2 (by omega)⟩

/-- C10: slice iteration is partial in the element size — for every
slice value whose element type has byte size 0, `iter` aborts (the
byte span is chunked with chunk size 0) for every memory and hence
every length, rather than returning a typed error or an empty
iteration. -/
theorem C10_zero_element_size_panics (s : Slice) (mem : Nat → Nat)
    (h : s.elt.size = 0) : Slice.iter s mem = .panicked := by
  unfold Slice.iter
  simp [h]

/-- Witness for C10: a slice with length 0 and a zero-sized element
type still aborts when `iter` is called. -/
theorem C10_zero_element_size_panics_witness :
    Slice.iter ⟨0, 1, ⟨.mk 0 (.otherTag 0) [] [], 0⟩⟩ (fun a => a) = .panicked :=
  C10_zero_element_size_panics ⟨0, 1, ⟨.mk 0 (.otherTag 0) [] [], 0⟩⟩ (fun a => a) rfl

/-- C3: for every slice value whose length field reads 0, the result
of iteration does not depend on the memory behind the element pointer
(the pointer is never dereferenced), for every pointer value including
a non-null dangling one; every successful iteration yields no
elements, and with a positive element size the iteration succeeds with
the empty sequence outright. -/
theorem C3_len_zero_yields_nothing (v : Slice) (mem mem' : Nat → Nat)
    (h : v.len = 0) :
    Slice.iter v mem = Slice.iter v mem' ∧
    (∀ l, Slice.iter v mem = .ok l → l = []) ∧
    (0 < v.elt.size → Slice.iter v mem = .ok []) := by
  have hiter : ∀ m : Nat → Nat, Slice.iter v m =
      if v.elt.size = 0 then .panicked else .ok [] := by
    intro m
    unfold Slice.iter
    by_cases hz : v.elt.size = 0
    · simp [hz]
    · simp [hz, h, chunksList, chunksFuel_nil]
  refine ⟨by rw [hiter mem, hiter mem'], ?_, ?_⟩
  · intro l hl
    rw [hiter mem] at hl
    by_cases hz : v.elt.size = 0
    · rw [if_pos hz] at hl; cases hl
    · rw [if_neg hz] at hl; cases hl; rfl
  · intro hpos
    rw [hiter mem, if_neg (by omega)]

/-- Witness for C3: a length-0 slice over a non-null dangling pointer,
iterated against two entirely different memories, gives the same empty
iteration. -/
theorem C3_len_zero_yields_nothing_witness :
    Slice.iter ⟨0, 1, ⟨.mk 0 (.otherTag 0) [] [], 4⟩⟩ (fun _ => 0) =
      Slice.iter ⟨0, 1, ⟨.mk 0 (.otherTag 0) [] [], 4⟩⟩ (fun a => a + 7) ∧
    Slice.iter ⟨0, 1, ⟨.mk 0 (.otherTag 0) [] [], 4⟩⟩ (fun _ => 0) = .ok [] :=
  ⟨(C3_len_zero_yields_nothing _ (fun _ => 0) (fun a => a + 7) rfl).1,
   (C3_len_zero_yields_nothing _ (fun _ => 0) (fun a => a + 7) rfl).2.2 (by decide)⟩

/-- C4: for every slice value with length `n` and positive element
byte size `s`, iteration dereferences the pointer target, takes the
`n × s` bytes starting there, chunks them into `n` consecutive runs of
`s` bytes and yields exactly `n` values in declaration order, each
pairing one chunk with the element's schema type.  (The result is a
pure function of the slice and the memory, so calling `iter` again
restarts the same finite sequence.) -/
theorem C4_iter_chunks (s : Slice) (mem : Nat → Nat) (hs : 0 < s.elt.size) :
    Slice.iter s mem = .ok ((List.range s.len).map (fun i =>
      (s.elt, (List.range s.elt.size).map
        (fun j => mem (s.data_ptr + (s.elt.size * i + j)))))) := by
  unfold Slice.iter
  rw [if_neg (by omega)]
  rw [chunksList_range_map s.elt.size hs s.len (fun k => mem (s.data_ptr + k))]
  rw [List.take_of_length_le (by simp)]
  rw [List.map_map]
  rfl

/-- Witness for C4: a slice of two 1-byte elements at pointer 10 over
the identity memory yields exactly the two chunks `[10]` and `[11]`
paired with the element type. -/
theorem C4_iter_chunks_witness :
    Slice.iter ⟨2, 10, ⟨.mk 0 (.otherTag 0) [] [], 1⟩⟩ (fun a => a) =
      .ok [(⟨.mk 0 (.otherTag 0) [] [], 1⟩, [10]), (⟨.mk 0 (.otherTag 0) [] [], 1⟩, [11])] :=
  C4_iter_chunks ⟨2, 10, ⟨.mk 0 (.otherTag 0) [] [], 1⟩⟩ (fun a => a) (by decide)

/-- C1: building a sum-type schema from a structure-tagged entry
searches the entry's immediate children only; with no variant-part
child the result is the `MissingChild` error naming
`DW_TAG_variant_part`, and otherwise the discriminant is built from
the first variant-part child in declaration order. -/
theorem C1_structure_variant_part (u : RUnit) (e : DIE) (nm : String)
    (htag : e.tag = .DW_TAG_structure_type)
    (hname : get_name e = .ok nm)
    (hroot : u.entry e.offset = some e) :
    Enum.from_dw_tag_structure_type u e =
      match e.children.find? (fun c => c.tag == .DW_TAG_variant_part) with
      | none => .err (.MissingChild .DW_TAG_variant_part)
      | some c => (Discriminant.from_dw_tag_variant_part u c).map
          (fun d => ⟨u, e, nm, d⟩) := by
  unfold Enum.from_dw_tag_structure_type
  simp only [check_tag, htag, if_pos, hname, hroot, findVariantPartDiscr_eq_find]
  cases hf : e.children.find? (fun c => c.tag == .DW_TAG_variant_part) <;>
    simp [hf, RRes.map]

/-- The discriminant member entry of the C1 witness. -/
def c1member : DIE :=
  .mk 1 .DW_TAG_member
    [(.DW_AT_type, .UnitRef 3), (.DW_AT_data_member_location, .Udata 8)] []

/-- The discriminant's integer type entry of the C1 witness. -/
def c1tyEntry : DIE := .mk 3 (.otherTag 36) [] []

/-- The variant-part child of the C1 witness. -/
def c1vp : DIE :=
  .mk 2 .DW_TAG_variant_part
    [(.DW_AT_discr, .UnitRef 1), (.DW_AT_alignment, .Udata 4)] []

/-- A structure-tagged entry with a variant-part child. -/
def c1entry : DIE := .mk 0 .DW_TAG_structure_type [(.DW_AT_name, .Str ("E"))] [c1vp]

/-- The unit of the C1 witness. -/
def c1unit : RUnit :=
  ⟨fun n =>
    if n = 0 then some c1entry
    else if n = 1 then some c1member
    else if n = 2 then some c1vp
    else if n = 3 then some c1tyEntry
    else none,
   c1entry⟩

/-- A structure-tagged entry with children but no variant part. -/
def c1plain : DIE :=
  .mk 0 .DW_TAG_structure_type [(.DW_AT_name, .Str ("S"))] [.mk 4 .DW_TAG_member [] []]

/-- The unit of the no-variant-part half of the C1 witness. -/
def c1unit2 : RUnit := ⟨fun n => if n = 0 then some c1plain else none, c1plain⟩

/-- Witness for C1: with a variant-part child the discriminant comes
from that first child; without one the builder reports the
missing-child error naming the variant-part tag. -/
theorem C1_structure_variant_part_witness :
    Enum.from_dw_tag_structure_type c1unit c1entry =
      (Discriminant.from_dw_tag_variant_part c1unit c1vp).map
        (fun d => ⟨c1unit, c1entry, "E", d⟩) ∧
    Enum.from_dw_tag_structure_type c1unit2 c1plain =
      .err (.MissingChild .DW_TAG_variant_part) :=
  ⟨C1_structure_variant_part c1unit c1entry ("E") rfl rfl rfl,
   C1_structure_variant_part c1unit2 c1plain ("S") rfl rfl rfl⟩

/-- C5: the discriminant built from an enumeration-tagged entry has
the fixed location `Udata 0` (the entry's own bytes are the
discriminant) and its integer type is taken from the entry's own
`DW_AT_type` attribute. -/
theorem C5_enumeration_discriminant (u : RUnit) (e te : DIE) (tyOff al : Nat)
    (htag : e.tag = .DW_TAG_enumeration_type)
    (hty : get_type e = .ok tyOff)
    (hte : u.entry tyOff = some te)
    (hal : get_align e = .ok al) :
    Discriminant.from_dw_tag_enumeration_type u e =
      .ok ⟨DiscriminantType.from_die te, al, .Udata 0⟩ := by
  unfold Discriminant.from_dw_tag_enumeration_type
  simp [htag, hty, hte, hal]

/-- An enumeration-tagged entry whose `DW_AT_type` refers to offset 1. -/
def c5entry : DIE :=
  .mk 0 .DW_TAG_enumeration_type
    [(.DW_AT_name, .Str ("Simple")), (.DW_AT_type, .UnitRef 1), (.DW_AT_alignment, .Udata 1)] []

/-- The integer type entry of the C5 witness. -/
def c5ty : DIE := .mk 1 (.otherTag 36) [] []

/-- The unit of the C5 witness. -/
def c5unit : RUnit :=
  ⟨fun n => if n = 0 then some c5entry else if n = 1 then some c5ty else none, c5entry⟩

/-- Witness for C5 on a concrete enumeration entry. -/
theorem C5_enumeration_discriminant_witness :
    Discriminant.from_dw_tag_enumeration_type c5unit c5entry =
      .ok ⟨DiscriminantType.from_die c5ty, 1, .Udata 0⟩ :=
  C5_enumeration_discriminant c5unit c5entry c5ty 1 1 rfl rfl rfl rfl

/-- On a list of enumerator children, each carrying a `Udata` constant,
the enumeration loop of `Enum::variants` succeeds and produces one
variant per child in declaration order, holding the converted
(8-bit-truncated) constant. -/
theorem enumVariantsLoop_all_udata (disc : Discriminant) (l : List DIE)
    (h : l.all (fun c => decide (c.tag = .DW_TAG_enumerator) &&
      decide (c.attr_value .DW_AT_const_value = some (.Udata (udataConst c)))) = true) :
    enumVariantsLoop disc l =
      .ok (l.map (fun c => ⟨c, disc, some (.U8 (udataConst c % 256))⟩)) := by
  induction l with
  | nil => rfl
  | cons c rest ih =>
    simp only [List.all_cons, Bool.and_eq_true, decide_eq_true_eq] at h
    obtain ⟨⟨htag, hv⟩, hrest⟩ := h
    simp [enumVariantsLoop, htag, hv, convOpt, DiscriminantValue.ofAttr,
      ih hrest, RRes.map]

/-- C6 (amended): enumerating the variants of an enumeration-tagged
entry visits the enumerator children in declaration order without
re-sorting, and each variant's discriminant value is the declared
constant passed through the attribute-to-discriminant conversion,
which truncates the `Udata`-encoded constant to its low 8 bits. -/
theorem C6_enumeration_variants_order (en : Enum) (tyOff : Nat) (te : DIE)
    (hroot : en.unit.entry en.entry.offset = some en.entry)
    (htag : en.entry.tag = .DW_TAG_enumeration_type)
    (hty : get_type en.entry = .ok tyOff)
    (hte : en.unit.entry tyOff = some te)
    (hch : en.entry.children.all (fun c => decide (c.tag = .DW_TAG_enumerator) &&
      decide (c.attr_value .DW_AT_const_value = some (.Udata (udataConst c)))) = true) :
    Enum.variants en = .ok (en.entry.children.map
      (fun c => ⟨c, en.discriminant, some (.U8 (udataConst c % 256))⟩)) := by
  unfold Enum.variants
  rw [hroot]
  simp [htag, hty, hte, enumVariantsLoop_all_udata en.discriminant _ hch]

/-- The single enumerator child of the C6 enumeration, declaring the
constant 300 in the `Udata` encoding. -/
def c6child : DIE := .mk 2 .DW_TAG_enumerator [(.DW_AT_const_value, .Udata 300)] []

/-- The declared integer type entry of the C6 enumeration. -/
def c6ty : DIE := .mk 1 (.otherTag 36) [] []

/-- The C6 enumeration entry. -/
def c6entry : DIE :=
  .mk 0 .DW_TAG_enumeration_type
    [(.DW_AT_name, .Str ("Big")), (.DW_AT_type, .UnitRef 1), (.DW_AT_alignment, .Udata 1)]
    [c6child]

/-- The unit of the C6 enumeration. -/
def c6unit : RUnit :=
  ⟨fun n =>
    if n = 0 then some c6entry
    else if n = 1 then some c6ty
    else if n = 2 then some c6child
    else none,
   c6entry⟩

/-- The discriminant descriptor of the C6 enumeration. -/
def c6disc : Discriminant := ⟨DiscriminantType.from_die c6ty, 1, .Udata 0⟩

/-- The C6 enumeration schema value. -/
def c6enum : Enum := ⟨c6unit, c6entry, "Big", c6disc⟩

/-- Counterexample to C6 as stated: the enumerator declares the
constant 300, but the variant produced for it stores the 8-bit value
44 — the declared constant is not taken literally. -/
theorem C6_counterexample :
    Enum.variants c6enum = .ok [⟨c6child, c6disc, some (.U8 44)⟩] ∧
    udataConst c6child = 300 ∧
    some (DiscriminantValue.U8 44) ≠ some (DiscriminantValue.U8 300) :=
  ⟨rfl, rfl, by decide⟩

/-- Witness for the amended C6 on the concrete enumeration: one
variant, in declaration order, holding `300 % 256 = 44`. -/
theorem C6_enumeration_variants_order_witness :
    Enum.variants c6enum = .ok [⟨c6child, c6disc, some (.U8 44)⟩] :=
  C6_enumeration_variants_order c6enum 1 c6ty rfl rfl rfl rfl (by decide)

/-- C2 (amended): the schema-construction constructors return typed
errors (a tag mismatch on the sum-type builder is reported, not
thrown), but `Enum::variants`, `Enum::size`, `Enum::align` and the
attribute-to-discriminant conversion abort the process on malformed or
unexpected metadata instead of returning a reported error: a missing
byte-size or alignment attribute aborts the size/alignment readers, a
missing or non-reference `DW_AT_type` on the enumeration entry aborts
variant enumeration, and an unsupported attribute encoding aborts the
discriminant-value conversion. -/
theorem C2_aborts_instead_of_errors :
    (∀ (u : RUnit) (e : DIE), e.tag ≠ .DW_TAG_structure_type →
      Enum.from_dw_tag_structure_type u e =
        .err (.TagMismatch .DW_TAG_structure_type e.tag)) ∧
    (∀ en : Enum, (en.entry.attr_value .DW_AT_byte_size).bind udata_value = none →
      Enum.size en = .panicked) ∧
    (∀ en : Enum, (en.entry.attr_value .DW_AT_alignment).bind udata_value = none →
      Enum.align en = .panicked) ∧
    (∀ (en : Enum) (k : ErrorKind), en.entry.tag = .DW_TAG_enumeration_type →
      get_type en.entry = .err k → Enum.variants en = .panicked) ∧
    (∀ offset : Nat, DiscriminantValue.ofAttr (.UnitRef offset) = .panicked) := by
  refine ⟨?_, ?_, ?_, ?_, ?_⟩
  · intro u e h
    simp [Enum.from_dw_tag_structure_type, check_tag, h]
  · intro en h
    simp [Enum.size, h]
  · intro en h
    simp [Enum.align, h]
  · intro en k htag hty
    unfold Enum.variants
    cases en.unit.entry en.entry.offset with
    | none => rfl
    | some root => simp [htag, hty]
  · intro offset
    rfl

/-- An entry that is not structure-tagged. -/
def c2entry : DIE := .mk 0 (.otherTag 9) [] []

/-- An empty unit for the C2 witness. -/
def c2unit : RUnit := ⟨fun _ => none, c2entry⟩

/-- A discriminant descriptor for the C2 witness enum. -/
def c2disc : Discriminant := ⟨DiscriminantType.from_die (.mk 1 (.otherTag 36) [] []), 1, .Udata 0⟩

/-- An enum schema value whose entry lacks both the byte-size and
alignment attributes. -/
def c2enum : Enum :=
  ⟨c2unit, .mk 0 .DW_TAG_enumeration_type [(.DW_AT_name, .Str ("N"))] [], "N", c2disc⟩

/-- Witness for the amended C2: a tag mismatch is a typed error, while
a missing byte-size and an unsupported conversion encoding abort. -/
theorem C2_aborts_instead_of_errors_witness :
    Enum.from_dw_tag_structure_type c2unit c2entry =
      .err (.TagMismatch .DW_TAG_structure_type (.otherTag 9)) ∧
    Enum.size c2enum = .panicked ∧
    DiscriminantValue.ofAttr (.UnitRef 5) = .panicked :=
  ⟨C2_aborts_instead_of_errors.1 c2unit c2entry (by decide),
   C2_aborts_instead_of_errors.2.1 c2enum rfl,
   C2_aborts_instead_of_errors.2.2.2.2 5⟩

/-- Counterexample to C2 as stated: reading the size of a concrete
enum whose entry lacks `DW_AT_byte_size` aborts the process instead
of returning a reported error value. -/
theorem C2_counterexample : Enum.size c2enum = .panicked := rfl

/-- The discriminant member entry of the C7 variant part. -/
def c7member : DIE :=
  .mk 1 .DW_TAG_member
    [(.DW_AT_type, .UnitRef 3), (.DW_AT_data_member_location, .Udata 8)] []

/-- The discriminant's integer type entry of the C7 variant part. -/
def c7ty : DIE := .mk 3 (.otherTag 36) [] []

/-- A variant-part entry with a resolvable discriminant member but no
`DW_AT_alignment` attribute — the failing input for C7. -/
def c7vp : DIE := .mk 2 .DW_TAG_variant_part [(.DW_AT_discr, .UnitRef 1)] []

/-- The unit of the C7 failing input. -/
def c7unit : RUnit :=
  ⟨fun n => if n = 1 then some c7member else if n = 3 then some c7ty else none, c7vp⟩

/-- C7: on a variant-part entry without an alignment attribute, the
composed source (with `get_align` as declared in src/lib.rs, which
reports `MissingAttr`) aborts in `Discriminant::from_dw_tag_variant_part`
through the `.unwrap()` preceding the intended `.unwrap_or(1)` default,
so the default to 1 never happens; the spec-faithful construction
defaults the alignment to 1 on the same input; and for other entries a
missing byte-size or alignment attribute is indeed the missing-attribute
error of the accessors, never a guessed default. -/
theorem C7_variant_part_alignment_default_bug :
    Discriminant.from_dw_tag_variant_part c7unit c7vp = .panicked ∧
    get_align c7vp = .err (.MissingAttr .DW_AT_alignment) ∧
    get_size c7vp = .err (.MissingAttr .DW_AT_byte_size) ∧
    Discriminant.from_dw_tag_variant_part_spec c7unit c7vp =
      .ok ⟨DiscriminantType.from_die c7ty, 1, .Udata 8⟩ :=
  ⟨rfl, rfl, rfl, rfl⟩

/-- C8 (amended): the symbol-to-type resolver has three distinct
reported failure modes — no symbol address for the helper function, a
symbol whose frame carries no debug-info entry offset, and a resolved
entry without a type-parameter child — with three pairwise-distinct
messages; on success it returns the unit together with the payload
type of the first type-parameter child among the entry's immediate
children. -/
theorem C8_resolver_failure_modes :
    (∀ ctx : Ctx, ctx.symbolAddr = none →
      dw_unit_and_die_of ctx = .err (.MakeAMoreSpecificVariant msgNoSymbol)) ∧
    (∀ (ctx : Ctx) (a : Nat), ctx.symbolAddr = some a → ctx.frameOffset a = none →
      dw_unit_and_die_of ctx = .err (.MakeAMoreSpecificVariant msgNoDebugInfo)) ∧
    (∀ (ctx : Ctx) (a off : Nat) (u : RUnit) (root : DIE),
      ctx.symbolAddr = some a → ctx.frameOffset a = some off →
      ctx.unitFor a = some u → u.entry off = some root →
      root.children.find? (fun c => c.tag == .DW_TAG_template_type_parameter) = none →
      dw_unit_and_die_of ctx = .err (.MakeAMoreSpecificVariant msgNoParam)) ∧
    (∀ (ctx : Ctx) (a off : Nat) (u : RUnit) (root c : DIE),
      ctx.symbolAddr = some a → ctx.frameOffset a = some off →
      ctx.unitFor a = some u → u.entry off = some root →
      root.children.find? (fun c => c.tag == .DW_TAG_template_type_parameter) = some c →
      dw_unit_and_die_of ctx = (get_type c).map (fun ty => (u, ty))) ∧
    (msgNoSymbol ≠ msgNoDebugInfo ∧ msgNoSymbol ≠ msgNoParam ∧
      msgNoDebugInfo ≠ msgNoParam) := by
  refine ⟨?_, ?_, ?_, ?_, by decide, by decide, by decide⟩
  · intro ctx h
    unfold dw_unit_and_die_of
    rw [h]
  · intro ctx a h hf
    simp only [dw_unit_and_die_of, h, hf]
  · intro ctx a off u root h hf hu he hfind
    simp only [dw_unit_and_die_of, h, hf, hu, he, hfind]
  · intro ctx a off u root c h hf hu he hfind
    simp only [dw_unit_and_die_of, h, hf, hu, he, hfind]

/-- The type-parameter child of the C8 witness entry. -/
def c8param : DIE := .mk 5 .DW_TAG_template_type_parameter [(.DW_AT_type, .UnitRef 3)] []

/-- The resolved helper-function entry of the C8 witness. -/
def c8root : DIE := .mk 0 (.otherTag 46) [] [c8param]

/-- The unit of the C8 witness. -/
def c8unitr : RUnit :=
  ⟨fun n => if n = 0 then some c8root else if n = 5 then some c8param else none, c8root⟩

/-- A context in which every resolution step succeeds. -/
def c8ctx : Ctx := ⟨some 7, fun _ => some 0, fun _ => some c8unitr⟩

/-- Witness for the amended C8: the fully-resolvable context returns
the first type-parameter child's payload type, and a context without a
symbol address reports the no-symbol failure. -/
theorem C8_resolver_failure_modes_witness :
    dw_unit_and_die_of c8ctx = .ok (c8unitr, 3) ∧
    dw_unit_and_die_of ⟨none, fun _ => none, fun _ => none⟩ =
      .err (.MakeAMoreSpecificVariant msgNoSymbol) :=
  ⟨C8_resolver_failure_modes.2.2.2.1 c8ctx 7 0 c8unitr c8root c8param rfl rfl rfl rfl rfl,
   C8_resolver_failure_modes.1 ⟨none, fun _ => none, fun _ => none⟩ rfl⟩

/-- A context whose symbol resolves but whose frame has no debug-info
entry offset. -/
def c8ctxBad : Ctx := ⟨some 7, fun _ => none, fun _ => none⟩

/-- Counterexample to C8 as stated: a third failure mode exists,
distinct from the two the claim allows — the symbol is found but the
frame carries no debug-info entry offset, and its message differs from
both the no-symbol and the no-type-parameter messages. -/
theorem C8_counterexample :
    dw_unit_and_die_of c8ctxBad = .err (.MakeAMoreSpecificVariant msgNoDebugInfo) ∧
    msgNoDebugInfo ≠ msgNoSymbol ∧ msgNoDebugInfo ≠ msgNoParam :=
  ⟨rfl, by decide, by decide⟩

end Deflect
